import Mathlib

/-!
Verification of the simple-load-test program (src/main.go).

The development shallowly embeds the program's core:
* the per-tick rate scheduler (the loop in sendRequests, lines 94-111),
* the per-request dispatch path (sendRequest, lines 130-145),
* the per-worker batch loop (sendNRequests, lines 122-127),
* the result aggregator (the counting goroutine, lines 65-73),
* the run controller's terminal path (lines 116-119).

Machine ints of Go are modelled as Nat (rates, counts; the claims restrict
rates to R >= 0) and Int (HTTP status codes). Channel sends are modelled as
emitted event lists; a nil-pointer dereference is modelled as an explicit
crashing termination of the worker.
-/

namespace SimpleLoadTest

/-- Hard-coded per-worker cap, src/main.go line 16: maxRequestsPerThread = 20. -/
def maxRequestsPerThread : Nat := 20

/-- Number of worker batches spawned per tick, line 94:
numThreads = (rps / maxRequestsPerThread) + 1 (Go integer division, rps >= 0). -/
def numThreads (rps : Nat) : Nat := rps / maxRequestsPerThread + 1

/-- Batch size for the 0-based worker index i, lines 105-108:
reqsForThisThread = rps % ((i+1)*maxRequestsPerThread), then capped at
maxRequestsPerThread. -/
def reqsForThisThread (rps : Nat) (i : Nat) : Nat :=
  let r := rps % ((i + 1) * maxRequestsPerThread)
  if r > maxRequestsPerThread then maxRequestsPerThread else r

/-- The full per-tick partition: the list of batch sizes handed to the
workers spawned by one tick (the loop at lines 104-111). -/
def tickBatches (rps : Nat) : List Nat :=
  (List.range (numThreads rps)).map (reqsForThisThread rps)

/-- Transport-layer errors are abstract; only identity matters. -/
abbrev GoError := String

/-- The part of an http.Response the program reads: the status code. -/
structure HttpResponse where
  statusCode : Int
  deriving Repr, DecidableEq

/-- Result of h.Do(req), line 131: either a transport error (and a nil
response) or a completed exchange carrying a response. -/
abbrev ExchangeResult := Except GoError HttpResponse

/-- An event emitted by a worker on one of the two channels: an Outcome on
the responses channel, or an error on the fatal channel. -/
inductive Event where
  | outcome (b : Bool)
  | fatal (e : GoError)
  deriving Repr, DecidableEq

/-- How one call of sendRequest (or one worker) terminates: normally, or by
the nil-pointer dereference at line 135 (resp.Body.Close() with resp nil). -/
inductive Termination where
  | normal
  | nilDeref
  deriving Repr, DecidableEq

/-- Events emitted plus the way control flow ended. -/
structure RequestEffect where
  events : List Event
  term : Termination
  deriving Repr, DecidableEq

/-- The status-code membership loop of sendRequest, lines 137-142: scan
okCodes in order, return true on the first code equal to the status. -/
def matchesOkCode (okCodes : List Int) (status : Int) : Bool :=
  match okCodes with
  | [] => false
  | c :: rest => if c = status then true else matchesOkCode rest status

/-- sendRequest, lines 130-145. On a transport error the code sends the
error on the fatal channel (line 133) and then — because the error branch
does not return — executes resp.Body.Close() at line 135 with resp nil,
a nil-pointer dereference. On a completed exchange it closes the body and
emits the boolean Outcome of the status-code scan. -/
def sendRequest (okCodes : List Int) (res : ExchangeResult) : RequestEffect :=
  match res with
  | .error e =>
      -- line 133: fatal <- err; then line 135 dereferences the nil resp
      { events := [.fatal e], term := .nilDeref }
  | .ok resp =>
      if matchesOkCode okCodes resp.statusCode then
        { events := [.outcome true], term := .normal }
      else
        { events := [.outcome false], term := .normal }

/-- sendNRequests, lines 122-127: the worker's batch loop. The i-th element
of results is the exchange result of the i-th sequential attempt, so the
batch size n is results.length. A crash of sendRequest unwinds the loop. -/
def sendNRequests (okCodes : List Int) (results : List ExchangeResult) :
    RequestEffect :=
  match results with
  | [] => { events := [], term := .normal }
  | r :: rest =>
      let eff := sendRequest okCodes r
      match eff.term with
      | .normal =>
          let effRest := sendNRequests okCodes rest
          { events := eff.events ++ effRest.events, term := effRest.term }
      | .nilDeref => eff

/-- The aggregator's counters, lines 60 and 65-73. -/
structure Counters where
  okCount : Nat
  errCount : Nat
  deriving Repr, DecidableEq

/-- One step of the counting goroutine, lines 66-72: increment okCount on a
true Outcome, errCount on a false one. -/
def aggregateStep (c : Counters) (r : Bool) : Counters :=
  if r then { c with okCount := c.okCount + 1 }
  else { c with errCount := c.errCount + 1 }

/-- The aggregator consuming a finite sequence of Outcome events in order,
starting from zeroed counters. -/
def aggregate (events : List Bool) : Counters :=
  events.foldl aggregateStep { okCount := 0, errCount := 0 }

/-- Terminal result of sendRequests, lines 84-120: either the request-build
error returned before the run starts (lines 84-88), or — once the tick
timer is running — the first error received from the fatal channel,
returned after stopping the timer (lines 116-119). -/
inductive RunResult where
  | buildError (e : GoError)
  | fatalReturn (e : GoError) (timerStopped : Bool)
  deriving Repr, DecidableEq

/-- The run controller's control flow in sendRequests: a build failure
returns early; otherwise the function blocks at line 116 on the fatal
channel, and the only return statement of the started run (line 119) hands
back the received error after timer.Stop() at line 118. -/
def sendRequests (buildReq : Except GoError Unit) (firstFatal : GoError) :
    RunResult :=
  match buildReq with
  | .error e => .buildError e
  | .ok _ => .fatalReturn firstFatal true

/-- Projection of a worker event stream to the Outcome booleans the
aggregator consumes (fatal events travel on the other channel). -/
def outcomesOf (events : List Event) : List Bool :=
  events.filterMap (fun e =>
    match e with
    | .outcome b => some b
    | .fatal _ => none)

/-- One tick of the end-to-end scenario of the spec: target rate 5, every
exchange completes with status code 200. The tick spawns one worker per
batch of tickBatches 5 and each worker runs its batch. -/
def scenarioTickEvents (okCodes : List Int) : List Event :=
  (tickBatches 5).flatMap
    (fun b => (sendNRequests okCodes (List.replicate b (Except.ok ⟨200⟩))).events)

/-- Three ticks of the scenario, concatenated in order. -/
def scenarioEvents (okCodes : List Int) : List Event :=
  scenarioTickEvents okCodes ++ scenarioTickEvents okCodes ++
    scenarioTickEvents okCodes

/-- The cap at lines 106-108 expressed as a minimum. -/
theorem cap_eq_min (a b : Nat) : (if a > b then b else a) = min b a := by
  split <;> omega

/-- C1: for every target rate R >= 0 with the hard-coded cap 20, one tick
produces exactly R/20 + 1 worker batches, the batch for 0-based worker
index i has size min(20, R mod ((i+1)*20)), and no batch size exceeds 20. -/
theorem scheduler_partition_formula (R : Nat) :
    (tickBatches R).length = R / 20 + 1 ∧
    (∀ i, ∀ h : i < (tickBatches R).length,
        (tickBatches R).get ⟨i, h⟩ = min 20 (R % ((i + 1) * 20))) ∧
    ∀ b ∈ tickBatches R, b ≤ 20 := by
  refine ⟨?_, ?_, ?_⟩
  · simp [tickBatches, numThreads, maxRequestsPerThread]
  · intro i h
    simp only [tickBatches, List.get_eq_getElem, List.getElem_map,
      List.getElem_range]
    dsimp only [reqsForThisThread, maxRequestsPerThread]
    exact cap_eq_min _ _
  · intro b hb
    simp only [tickBatches, List.mem_map] at hb
    obtain ⟨i, _, rfl⟩ := hb
    dsimp only [reqsForThisThread, maxRequestsPerThread]
    split
    · exact Nat.le_refl 20
    · exact Nat.le_of_not_lt (by assumption)

/-- Instantiation of the partition formula at R = 45, worker index 2. -/
theorem scheduler_partition_formula_witness :
    (tickBatches 45).get ⟨2, by decide⟩ = min 20 (45 % 60) :=
  (scheduler_partition_formula 45).2.1 2 (by decide)

/-- C3: the per-tick partition is only an approximation of the target rate:
at R = 40 the batch sizes sum to 20, not 40. -/
theorem partition_not_exact :
    ∃ R : Nat, (tickBatches R).sum ≠ R :=
  ⟨40, by decide⟩

/-- C9: at target rate 0, one tick schedules exactly one worker, its batch
size is 0, and a batch of size 0 issues no requests and emits no events. -/
theorem zero_rate_no_requests :
    numThreads 0 = 1 ∧ tickBatches 0 = [0] ∧
    ∀ okCodes : List Int,
      sendNRequests okCodes [] = { events := [], term := .normal } :=
  ⟨rfl, rfl, fun _ => rfl⟩

/-- C10: for every rate R below twice the cap the batch sizes sum to
exactly R; the first approximation error is at R = 40, where they sum
to 20. -/
theorem exact_partition_below_forty :
    (∀ R : Nat, R ≤ 39 → (tickBatches R).sum = R) ∧
    (tickBatches 40).sum = 20 := by
  refine ⟨?_, by decide⟩
  intro R h
  interval_cases R <;> decide

/-- Instantiation of the exact-partition bound at R = 39. -/
theorem exact_partition_below_forty_witness :
    (tickBatches 39).sum = 39 :=
  exact_partition_below_forty.1 39 (by decide)

/-- C2: after a transport error, sendRequest sends the error on the fatal
channel and emits no Outcome, but — the error branch at lines 132-134 not
returning — it then reaches the nil-response dereference at line 135 and
crashes, for every OK set and every error. -/
theorem transport_error_dereferences_nil (okCodes : List Int) (e : GoError) :
    sendRequest okCodes (.error e) =
      { events := [.fatal e], term := .nilDeref } := rfl

/-- C6: a worker whose first request attempt raises a fatal error does not
execute its remaining loop iterations: the crash of sendRequest unwinds the
batch loop, so the later attempts (here a batch of size 1 + rest.length)
contribute no events, whatever their exchange results would have been. -/
theorem fatal_aborts_batch (okCodes : List Int) (e : GoError)
    (rest : List ExchangeResult) :
    sendNRequests okCodes (Except.error e :: rest) =
      { events := [.fatal e], term := .nilDeref } := rfl

/-- The status-code scan of sendRequest decides list membership. -/
theorem matchesOkCode_eq_mem (l : List Int) (c : Int) :
    matchesOkCode l c = decide (c ∈ l) := by
  induction l with
  | nil => rfl
  | cons a rest ih =>
      by_cases h : a = c
      · subst h; simp [matchesOkCode]
      · have h2 : ¬c = a := fun hc => h hc.symm
        simp [matchesOkCode, h, ih, h2]

/-- C5: for a completed exchange, the emitted Outcome is true exactly when
the status code belongs to the OK set, false exactly when it does not, and
reordering the OK set (any permutation) leaves the classification
unchanged. -/
theorem outcome_iff_in_ok_set (okCodes l₂ : List Int) (resp : HttpResponse)
    (hperm : okCodes.Perm l₂) :
    ((sendRequest okCodes (.ok resp)).events = [.outcome true] ↔
        resp.statusCode ∈ okCodes) ∧
    ((sendRequest okCodes (.ok resp)).events = [.outcome false] ↔
        resp.statusCode ∉ okCodes) ∧
    matchesOkCode okCodes resp.statusCode =
      matchesOkCode l₂ resp.statusCode := by
  refine ⟨?_, ?_, ?_⟩
  · simp [sendRequest, matchesOkCode_eq_mem]
    split <;> simp_all
  · simp [sendRequest, matchesOkCode_eq_mem]
    split <;> simp_all
  · simp only [matchesOkCode_eq_mem]
    exact decide_eq_decide.mpr hperm.mem_iff

/-- Instantiation of the OK-set classification at OK set [200, 204],
status 200, against the reordering [204, 200]. -/
theorem outcome_iff_in_ok_set_witness :
    ((sendRequest [200, 204] (.ok ⟨200⟩)).events = [.outcome true] ↔
        (200 : Int) ∈ [(200 : Int), 204]) ∧
    matchesOkCode [200, 204] 200 = matchesOkCode [204, 200] 200 :=
  ⟨(outcome_iff_in_ok_set [200, 204] [204, 200] ⟨200⟩ (by decide)).1,
   (outcome_iff_in_ok_set [200, 204] [204, 200] ⟨200⟩ (by decide)).2.2⟩

/-- Running the counting loop from an arbitrary counter state adds the
number of true and false Outcomes to the respective fields. -/
theorem aggregate_foldl (events : List Bool) (c : Counters) :
    events.foldl aggregateStep c =
      { okCount := c.okCount + events.count true,
        errCount := c.errCount + events.count false } := by
  induction events generalizing c with
  | nil => simp
  | cons b rest ih =>
      cases b <;>
        simp [aggregateStep, ih, List.count_cons] <;> omega

/-- A boolean list has exactly as many trues and falses as elements. -/
theorem count_true_add_count_false (l : List Bool) :
    l.count true + l.count false = l.length := by
  induction l with
  | nil => rfl
  | cons b rest ih => cases b <;> simp [List.count_cons] <;> omega

/-- C4: after consuming a sequence of N Outcome events of which k are true,
the aggregator holds successCount = k and failureCount = N - k, so the two
counters sum to N. -/
theorem aggregate_counts (events : List Bool) :
    (aggregate events).okCount = events.count true ∧
    (aggregate events).errCount = events.length - events.count true ∧
    (aggregate events).okCount + (aggregate events).errCount =
      events.length := by
  have hc := count_true_add_count_false events
  rw [aggregate, aggregate_foldl]
  dsimp only
  exact ⟨Nat.zero_add _, by omega, by omega⟩

/-- C7: once the run has started (the request built successfully), the run
controller returns exactly the first error received from the fatal channel,
after stopping the tick timer; no other terminal value exists for a started
run. -/
theorem run_terminates_with_first_fatal (firstFatal : GoError) :
    sendRequests (Except.ok ()) firstFatal =
      .fatalReturn firstFatal true := rfl

/-- A batch whose every exchange completes with the same response emits one
Outcome per attempt, each carrying the classification of that status code,
and terminates normally. -/
theorem sendNRequests_replicate_ok (okCodes : List Int) (resp : HttpResponse)
    (n : Nat) :
    sendNRequests okCodes (List.replicate n (Except.ok resp)) =
      { events :=
          List.replicate n (.outcome (matchesOkCode okCodes resp.statusCode)),
        term := .normal } := by
  induction n with
  | zero => rfl
  | succ k ih =>
      cases hm : matchesOkCode okCodes resp.statusCode <;>
        simp [List.replicate_succ, sendNRequests, sendRequest, hm, ih]

/-- C8: at target rate 5 each tick schedules exactly one worker with batch
size min(20, 5 mod 20) = 5, and over three ticks whose 15 responses all
carry status 200, an OK set containing 200 yields successCount = 15 and
failureCount = 0. -/
theorem scenario_rate5_three_ticks (okCodes : List Int)
    (h : matchesOkCode okCodes 200 = true) :
    tickBatches 5 = [5] ∧
    aggregate (outcomesOf (scenarioEvents okCodes)) =
      { okCount := 15, errCount := 0 } := by
  refine ⟨rfl, ?_⟩
  have hsend :
      sendNRequests okCodes (List.replicate 5 (Except.ok ⟨200⟩)) =
        { events := List.replicate 5 (.outcome true), term := .normal } := by
    rw [sendNRequests_replicate_ok]
    simp [h]
  simp only [scenarioEvents, scenarioTickEvents,
    show tickBatches 5 = [5] from rfl, List.flatMap_cons, List.flatMap_nil,
    hsend, List.append_nil]
  rfl

/-- Instantiation of the scenario at the default OK set [200]. -/
theorem scenario_rate5_three_ticks_witness :
    matchesOkCode [200] 200 = true ∧
    aggregate (outcomesOf (scenarioEvents [200])) =
      { okCount := 15, errCount := 0 } :=
  ⟨by decide, (scenario_rate5_three_ticks [200] (by decide)).2⟩

end SimpleLoadTest
